import Mathlib

/-!
# Module manager of dnsforwarder (`mmgr.c`)

A shallow embedding of `mmgr.c`: the registry of forwarding modules
(`Modules`, `ModuleArray`), the domain-to-module mapping (`Distributor`),
the two group initialisers `Udp_Init` and `Tcp_Init`, `MMgr_Init`, and the
dispatcher `MMgr_Send`.

Conventions of the embedding.

* A C string is the list of its bytes before the terminating NUL (`CStr`);
  a `char[n]` scratch buffer is a list of `n` bytes, NUL bytes included.
* A `ModuleInterface *` is `Option Nat`: `none` is `NULL`, `some k` is the
  address of the `k`-th element ever added to the stable buffer `Modules`.
* Functions of other translation units (filter, hosts, cache, the UDP and
  TCP forwarders, string lists, string chunks) are fields of `Env`, each a
  function of the arguments it is called with; whether a storage request is
  granted depends on how many requests came before it.
* Calls to collaborators are recorded: `MMgr_Send` returns the list of the
  calls it made, the initialisers append the forwarder constructions they
  requested to `State.Calls`.
-/

namespace MMgr

/-! ## Data model -/

/-- Bytes of a C string, terminating NUL excluded. -/
abbrev CStr := List Nat

/-- A `ModuleInterface *`: `none` for `NULL`, `some k` for the address of slot `k` of `Modules`. -/
abbrev ModulePtr := Option Nat

/-- Identity of a forwarder send routine (a C function pointer of type `SendFunc`). -/
abbrev SendFunc := Nat

/-- Modelled from the spec: the query header `IHeader` (declared in a header that is not part of
these sources), reduced to the three fields `MMgr_Send` reads: the domain name, its precomputed
hash and the length of the entity that follows the header. The entity length is a byte count
and is kept as a natural number. -/
structure IHeader where
  Domain : CStr
  HashValue : Int
  EntityLength : Nat
deriving DecidableEq

/-- Modelled from the spec: state of a UDP forwarder (`UdpM`, declared outside these sources):
the send routine it exposes and its private state. -/
structure UdpM where
  Send : SendFunc
  Internal : Nat
deriving DecidableEq

/-- Modelled from the spec: state of a TCP forwarder (`TcpM`, declared outside these sources):
the send routine it exposes and its private state. -/
structure TcpM where
  Send : SendFunc
  Internal : Nat
deriving DecidableEq

/-- The union `ModuleUnion` of `ModuleInterface`; `Unset` is the memory handed out by
`Modules.Add` before a forwarder constructor wrote to it. -/
inductive ModuleUnion where
  | Unset
  | Udp (u : UdpM)
  | Tcp (t : TcpM)
deriving DecidableEq

/-- The struct `ModuleInterface`. A field that was never assigned is `none`. -/
structure ModuleInterface where
  ModuleUnion : ModuleUnion
  Send : Option SendFunc
  ModuleName : Option String
deriving DecidableEq

/-- Modelled from the spec: the string chunk type `StringChunk` (declared outside these sources),
as the sequence of (domain, stored module pointer) entries added to it. -/
abbrev StringChunk := List (CStr × ModulePtr)

/-- A forwarder construction requested by a group initialiser. -/
inductive InitCall where
  | UdpM_Init (Services : CStr) (ParallelQuery : Bool)
  | TcpM_Init (Services : CStr) (Proxies : Option CStr)
deriving DecidableEq

/-- The file-level variables `Modules`, `ModuleArray` and `Distributor`, the number of storage
requests made so far, and the forwarder constructions requested so far. -/
structure State where
  Modules : List ModuleInterface
  ModuleArray : List ModulePtr
  Distributor : StringChunk
  Allocs : Nat
  Calls : List InitCall
deriving DecidableEq

/-- Modelled from the spec: the part of `ConfigFileInfo` (declared outside these sources) that the
module manager reads, the two list-valued keys `UDPGroup` and `TCPGroup`; `none` is the `NULL`
that `ConfigGetStringList` returns for a key that is not configured. -/
structure ConfigFileInfo where
  UDPGroup : Option (List CStr)
  TCPGroup : Option (List CStr)
deriving DecidableEq

/-- The functions of other translation units that `mmgr.c` calls. -/
structure Env where
  Filter_Out : IHeader → Bool
  Hosts_Get : IHeader → Int → Int
  DNSCache_FetchFromCache : IHeader → Int → Int
  /-- Result `none` is `FALSE`; `some i` is `TRUE` with `i` stored through the last argument. -/
  StringChunk_Domain_Match : StringChunk → CStr → Int → Option (Option ModulePtr)
  /-- Calling a send routine on a module union, a header and a buffer length. -/
  Invoke : SendFunc → ModuleUnion → IHeader → Int → Int
  Filter_Init : ConfigFileInfo → Int
  Hosts_Init : ConfigFileInfo → Int
  DNSCache_Init : ConfigFileInfo → Int
  IpMiscSingleton_Init : ConfigFileInfo → Int
  StringChunk_Init : Int
  StableBuffer_Init : Int
  Array_Init : Int
  /-- Return value and the forwarder state written through the first argument. -/
  UdpM_Init : CStr → Bool → Int × UdpM
  /-- Return value and the forwarder state written through the first argument. -/
  TcpM_Init : CStr → Option CStr → Int × TcpM
  StringListIterator_Init : List CStr → Int
  /-- Splitting a string at delimiters; `none` is a non-zero return value. -/
  StringList_Init : CStr → CStr → Option (List CStr)
  TrimAll : List CStr → CStr → List CStr
  LowercaseAll : List CStr → List CStr
  StringChunk_Add_Domain : StringChunk → CStr → ModulePtr → StringChunk
  /-- Whether the storage request number `n` (counted from 0) is granted. -/
  AllocOk : Nat → Bool

/-- What can go wrong in the call through `TheModule->Send`. -/
inductive Fault where
  /-- The module pointer does not point into `Modules`. -/
  | StrayModule
  /-- The field `Send` of the module was never assigned. -/
  | SendUnassigned
deriving DecidableEq

/-- A call made by `MMgr_Send`. -/
inductive Event where
  | Filter_Out (h : IHeader)
  | Hosts_Get (h : IHeader) (BufferLength : Int)
  | DNSCache_FetchFromCache (h : IHeader) (BufferLength : Int)
  | StringChunk_Domain_Match (Domain : CStr) (HashValue : Int)
  | Send (f : SendFunc) (TheModule : Nat) (h : IHeader) (BufferLength : Int)
deriving DecidableEq

/-! ## C string helpers -/

/-- The function `tolower` of the C locale on a byte. -/
def tolower (c : Nat) : Nat :=
  if 65 ≤ c ∧ c ≤ 90 then c + 32 else c

/-- The buffer `strncpy(dst, src, n)` leaves in `dst`: the first `n` bytes of `src`, padded with
NUL bytes when `src` is shorter than `n`. -/
def strncpy (src : CStr) (n : Nat) : List Nat :=
  src.take n ++ List.replicate (n - src.length) 0

/-- Modelled from the spec: `StrToLower` (defined outside these sources) lowercases a
NUL-terminated string in place, so that comparisons are case-insensitive; bytes after the first NUL
are left alone. -/
def StrToLower : List Nat → List Nat
  | [] => []
  | c :: cs => if c = 0 then c :: cs else tolower c :: StrToLower cs

/-- The function `strcmp` on two buffers; the end of a list is read as a NUL byte. -/
def strcmp : List Nat → List Nat → Int
  | a :: as, b :: bs => if a ≠ b then (a : Int) - (b : Int) else if a = 0 then 0 else strcmp as bs
  | a :: _, [] => (a : Int)
  | [], b :: _ => -(b : Int)
  | [], [] => 0

/-- The literal `"on"` with its terminating NUL. -/
def lit_on : List Nat := [111, 110, 0]

/-- The literal `"no"` with its terminating NUL. -/
def lit_no : List Nat := [110, 111, 0]

/-- Lines 130-139 of `Udp_Init`: the third field is copied into the 8-byte buffer `ParallelOnOff`,
the last byte is set to NUL, the buffer is lowercased and compared with `"on"`. -/
def ParallelQuery (Parallel : CStr) : Bool :=
  let ParallelOnOff := StrToLower ((strncpy Parallel 8).set 7 0)
  if strcmp ParallelOnOff lit_on = 0 then true else false

/-- Lines 202-209 of `Tcp_Init`: the third field is copied into the 8-byte buffer `ProxyString`,
the last byte is set to NUL, the buffer is lowercased and compared with `"no"`; on equality
`Proxies` becomes `NULL`, otherwise it keeps pointing at the third field. -/
def ProxiesArg (Proxies : CStr) : Option CStr :=
  let ProxyString := StrToLower ((strncpy Proxies 8).set 7 0)
  if strcmp ProxyString lit_no = 0 then none else some Proxies

/-- Equality of two C strings up to the case of ASCII letters (the wording of the specification:
compared case-insensitively). -/
def eqIgnoreCase (a b : CStr) : Bool :=
  decide (a.map tolower = b.map tolower)

/-- Triplets of a field list, in order; fields left over at the end (one or two) belong to no
triplet. -/
def triplets : List CStr → List (CStr × CStr × CStr)
  | s :: d :: p :: rest => (s, d, p) :: triplets rest
  | _ => []

/-! ## The registry -/

/-- State of the file-level variables right after `StringChunk_Init`, `StableBuffer_Init` and
`Array_Init`: nothing stored. -/
def State.empty : State :=
  { Modules := [], ModuleArray := [], Distributor := [], Allocs := 0, Calls := [] }

/-- Apply `f` to the element at position `k`, if there is one. -/
def updateAt (f : ModuleInterface → ModuleInterface) : Nat → List ModuleInterface → List ModuleInterface
  | _, [] => []
  | 0, m :: ms => f m :: ms
  | k + 1, m :: ms => m :: updateAt f k ms

/-- An assignment through a module pointer, `NewM->field = value`. -/
def State.assign (st : State) (NewM : Nat) (f : ModuleInterface → ModuleInterface) : State :=
  { st with Modules := updateAt f NewM st.Modules }

/-- Modelled from the spec: `Modules.Add(&Modules, NULL, sizeof(ModuleInterface), TRUE)` of the
stable buffer (defined outside these sources): a new slot after the existing ones, none of which
moves, or `NULL` when storage cannot grow. No data is copied into the new slot. -/
def Modules_Add (env : Env) (st : State) : ModulePtr × State :=
  if env.AllocOk st.Allocs then
    (some st.Modules.length,
      { st with
        Modules := st.Modules ++ [{ ModuleUnion := .Unset, Send := none, ModuleName := none }],
        Allocs := st.Allocs + 1 })
  else
    (none, { st with Allocs := st.Allocs + 1 })

/-- Modelled from the spec: `Array_PushBack(&ModuleArray, &Added, NULL)` (defined outside these
sources): the pointer is appended and its subscript returned, or a negative value when storage
cannot grow. -/
def Array_PushBack (env : Env) (st : State) (Added : ModulePtr) : Int × State :=
  if env.AllocOk st.Allocs then
    ((st.ModuleArray.length : Int),
      { st with ModuleArray := st.ModuleArray ++ [Added], Allocs := st.Allocs + 1 })
  else
    (-1, { st with Allocs := st.Allocs + 1 })

/-- Modelled from the spec: `Array_GetUsed` (defined outside these sources), the number of
registered routes. -/
def Array_GetUsed (a : List ModulePtr) : Nat := a.length

/-- Modelled from the spec: `Array_GetBySubscript` (defined outside these sources), the address of
the element at a position below `Array_GetUsed`, that is the element it holds; `none` is `NULL`. -/
def Array_GetBySubscript (a : List ModulePtr) (Subscript : Nat) : Option ModulePtr :=
  a[Subscript]?

/-- The function `StoreAModule` (lines 66-84). -/
def StoreAModule (env : Env) (st : State) : ModulePtr × State :=
  match Modules_Add env st with
  | (none, st1) => (none, st1)
  | (some Added, st1) =>
    match Array_PushBack env st1 (some Added) with
    | (r, st2) =>
      if r < 0 then (none, st2)
      else (some Added, st2.assign Added (fun m => { m with ModuleName := some "Unknown" }))

/-- The function `MappingAModule` (lines 32-64). -/
def MappingAModule (env : Env) (Stored : Nat) (Domains : CStr) (st : State) : Int × State :=
  match env.StringList_Init Domains [44] with
  | none => (-38, st)
  | some DomainList =>
    let DomainList := env.LowercaseAll (env.TrimAll DomainList [9, 32, 46])
    if env.StringListIterator_Init DomainList ≠ 0 then (-46, st)
    else
      (0, { st with
            Distributor := DomainList.foldl
              (fun D OneDomain => env.StringChunk_Add_Domain D OneDomain (some Stored))
              st.Distributor })

/-! ## Group initialisers -/

/-- Lines 128-152 of `Udp_Init`: the body of the loop after `StoreAModule` returned `NewM`. Both
the `continue` after a failed `UdpM_Init` and the end of the body lead to the next round. -/
def Udp_body (env : Env) (Services Domains Parallel : CStr) (NewM : Nat) (st1 : State) : State :=
  let st2 := st1.assign NewM (fun m => { m with ModuleName := some "UDP" })
  let r := env.UdpM_Init Services (ParallelQuery Parallel)
  let st3 : State :=
    { st2.assign NewM (fun m => { m with ModuleUnion := .Udp r.2 }) with
      Calls := st2.Calls ++ [.UdpM_Init Services (ParallelQuery Parallel)] }
  if r.1 ≠ 0 then
    st3
  else
    let st4 := st3.assign NewM (fun m => { m with Send := some r.2.Send })
    (MappingAModule env NewM Domains st4).2

/-- The loop of `Udp_Init` (lines 104-153) over the fields the iterator has not yet returned.
Three calls of `i.Next` take the next three fields; when fewer than three are left one of them is
`NULL` and the loop is left. -/
def Udp_loop (env : Env) : List CStr → State → Int × State
  | Services :: Domains :: Parallel :: rest, st =>
    match StoreAModule env st with
    | (none, st1) => (-101, st1)
    | (some NewM, st1) => Udp_loop env rest (Udp_body env Services Domains Parallel NewM st1)
  | _, st => (0, st)

/-- The function `Udp_Init` (lines 86-157). -/
def Udp_Init (env : Env) (ConfigInfo : ConfigFileInfo) (st : State) : Int × State :=
  match ConfigInfo.UDPGroup with
  | none => (0, st)
  | some UDPGroups =>
    if env.StringListIterator_Init UDPGroups ≠ 0 then (-33, st)
    else Udp_loop env UDPGroups st

/-- Lines 200-222 of `Tcp_Init`: the body of the loop after `StoreAModule` returned `NewM`. Both
the `continue` after a failed `TcpM_Init` and the end of the body lead to the next round. -/
def Tcp_body (env : Env) (Services Domains Proxies : CStr) (NewM : Nat) (st1 : State) : State :=
  let st2 := st1.assign NewM (fun m => { m with ModuleName := some "TCP" })
  let r := env.TcpM_Init Services (ProxiesArg Proxies)
  let st3 : State :=
    { st2.assign NewM (fun m => { m with ModuleUnion := .Tcp r.2 }) with
      Calls := st2.Calls ++ [.TcpM_Init Services (ProxiesArg Proxies)] }
  if r.1 ≠ 0 then
    st3
  else
    let st4 := st3.assign NewM (fun m => { m with Send := some r.2.Send })
    (MappingAModule env NewM Domains st4).2

/-- The loop of `Tcp_Init` (lines 177-223) over the fields the iterator has not yet returned. -/
def Tcp_loop (env : Env) : List CStr → State → Int × State
  | Services :: Domains :: Proxies :: rest, st =>
    match StoreAModule env st with
    | (none, st1) => (-192, st1)
    | (some NewM, st1) => Tcp_loop env rest (Tcp_body env Services Domains Proxies NewM st1)
  | _, st => (0, st)

/-- The function `Tcp_Init` (lines 159-227). -/
def Tcp_Init (env : Env) (ConfigInfo : ConfigFileInfo) (st : State) : Int × State :=
  match ConfigInfo.TCPGroup with
  | none => (0, st)
  | some TCPGroups =>
    if env.StringListIterator_Init TCPGroups ≠ 0 then (-33, st)
    else Tcp_loop env TCPGroups st

/-- The function `MMgr_Init` (lines 229-280): the return value and the file-level variables it
leaves behind. -/
def MMgr_Init (env : Env) (ConfigInfo : ConfigFileInfo) : Int × State :=
  if env.Filter_Init ConfigInfo ≠ 0 then (-159, State.empty)
  else if env.Hosts_Init ConfigInfo ≠ 0 then (-165, State.empty)
  else if env.DNSCache_Init ConfigInfo ≠ 0 then (-164, State.empty)
  else if env.IpMiscSingleton_Init ConfigInfo ≠ 0 then (-176, State.empty)
  else if env.StringChunk_Init ≠ 0 then (-10, State.empty)
  else if env.StableBuffer_Init ≠ 0 then (-27, State.empty)
  else if env.Array_Init ≠ 0 then (-98, State.empty)
  else
    let u := Udp_Init env ConfigInfo State.empty
    let ret := false || decide (u.1 = 0)
    let t := Tcp_Init env ConfigInfo u.2
    let ret := ret || decide (t.1 = 0)
    (if ret then 0 else 1, t.2)

/-! ## Dispatch -/

/-- Lines 305-318 of `MMgr_Send`: the value of `i` after the domain match and the fallback. -/
def MMgr_Send_route (env : Env) (st : State) (h : IHeader) : Option ModulePtr :=
  match env.StringChunk_Domain_Match st.Distributor h.Domain h.HashValue with
  | some i => i
  | none =>
    if Array_GetUsed st.ModuleArray > 0 then
      Array_GetBySubscript st.ModuleArray (h.EntityLength % Array_GetUsed st.ModuleArray)
    else
      none

/-- Lines 320-327 of `MMgr_Send`: the test of `i` and `*i` and the call through
`TheModule->Send`. -/
def MMgr_Send_forward (env : Env) (st : State) (i : Option ModulePtr) (h : IHeader)
    (BufferLength : Int) : Except Fault Int × List Event :=
  match i with
  | none => (.ok (-190), [])
  | some none => (.ok (-190), [])
  | some (some TheModule) =>
    match st.Modules[TheModule]? with
    | none => (.error .StrayModule, [])
    | some m =>
      match m.Send with
      | none => (.error .SendUnassigned, [])
      | some f =>
        (.ok (env.Invoke f m.ModuleUnion h BufferLength), [.Send f TheModule h BufferLength])

/-- The function `MMgr_Send` (lines 282-328): the return value and the calls made, in order. -/
def MMgr_Send (env : Env) (st : State) (h : IHeader) (BufferLength : Int) :
    Except Fault Int × List Event :=
  if env.Filter_Out h then
    (.ok 0, [.Filter_Out h])
  else if env.Hosts_Get h BufferLength = 0 then
    (.ok 0, [.Filter_Out h, .Hosts_Get h BufferLength])
  else if env.DNSCache_FetchFromCache h BufferLength = 0 then
    (.ok 0, [.Filter_Out h, .Hosts_Get h BufferLength, .DNSCache_FetchFromCache h BufferLength])
  else
    let r := MMgr_Send_forward env st (MMgr_Send_route env st h) h BufferLength
    (r.1,
      [.Filter_Out h, .Hosts_Get h BufferLength, .DNSCache_FetchFromCache h BufferLength,
        .StringChunk_Domain_Match h.Domain h.HashValue] ++ r.2)

/-- The send calls among the calls made. -/
def sendCalls (tr : List Event) : List Event :=
  tr.filter (fun e => match e with
    | .Send _ _ _ _ => true
    | _ => false)

/-- The domain lookups among the calls made. -/
def matchCalls (tr : List Event) : List Event :=
  tr.filter (fun e => match e with
    | .StringChunk_Domain_Match _ _ => true
    | _ => false)

/-- The common shape of `Udp_loop` and `Tcp_loop`: a loop over triplets that stores a module, runs
a body on it, and returns `code` as soon as a module cannot be stored. -/
def groupLoop (env : Env) (code : Int) (body : CStr → CStr → CStr → Nat → State → State) :
    List CStr → State → Int × State
  | s :: d :: p :: rest, st =>
    match StoreAModule env st with
    | (none, st1) => (code, st1)
    | (some NewM, st1) => groupLoop env code body rest (body s d p NewM st1)
  | _, st => (0, st)

/-! ## Sample data -/

/-- A sample environment: the filter keeps every query, hosts and cache answer nothing, no domain
matches, every constructor and every storage request succeeds; the UDP send routine is number 1 and
the TCP send routine number 2, and a send routine returns its own number plus the buffer length. -/
def sampleEnv : Env :=
  { Filter_Out := fun _ => false
    Hosts_Get := fun _ _ => 1
    DNSCache_FetchFromCache := fun _ _ => 1
    StringChunk_Domain_Match := fun _ _ _ => none
    Invoke := fun f _ _ BufferLength => (f : Int) + BufferLength
    Filter_Init := fun _ => 0
    Hosts_Init := fun _ => 0
    DNSCache_Init := fun _ => 0
    IpMiscSingleton_Init := fun _ => 0
    StringChunk_Init := 0
    StableBuffer_Init := 0
    Array_Init := 0
    UdpM_Init := fun _ _ => (0, { Send := 1, Internal := 0 })
    TcpM_Init := fun _ _ => (0, { Send := 2, Internal := 0 })
    StringListIterator_Init := fun _ => 0
    StringList_Init := fun s _ => some [s]
    TrimAll := fun l _ => l
    LowercaseAll := fun l => l
    StringChunk_Add_Domain := fun D s m => D ++ [(s, m)]
    AllocOk := fun _ => true }

/-- A sample query: domain `a`, hash 5, entity length 40. -/
def sampleQuery : IHeader := { Domain := [97], HashValue := 5, EntityLength := 40 }

/-- The string `203.0.113.1`. -/
def sampleServices : CStr := [50, 48, 51, 46, 48, 46, 49, 49, 51, 46, 49]

/-- The string `example.com`. -/
def sampleDomains : CStr := [101, 120, 97, 109, 112, 108, 101, 46, 99, 111, 109]

/-- The string `ON`. -/
def sampleUpperOn : CStr := [79, 78]

/-- The string `online-mode`, longer than the 8-byte buffer and beginning with `on`. -/
def sampleLongOn : CStr := [111, 110, 108, 105, 110, 101, 45, 109, 111, 100, 101]

/-- The string `No`. -/
def sampleMixedNo : CStr := [78, 111]

/-- The string `SOCKS5://127.0.0.1:1080`. -/
def sampleProxy : CStr :=
  [83, 79, 67, 75, 83, 53, 58, 47, 47, 49, 50, 55, 46, 48, 46, 48, 46, 49, 58, 49, 48, 56, 48]

/-- One UDP group `203.0.113.1 example.com ON`, no TCP group. -/
def sampleUdpConfig : ConfigFileInfo :=
  { UDPGroup := some [sampleServices, sampleDomains, sampleUpperOn]
    TCPGroup := none }

/-- Two TCP groups, the first with proxy field `No`, the second with a SOCKS5 proxy; no UDP
group. -/
def sampleTcpConfig : ConfigFileInfo :=
  { UDPGroup := none
    TCPGroup :=
      some [sampleServices, sampleDomains, sampleMixedNo, sampleServices, sampleDomains, sampleProxy] }

/-- Neither a UDP group nor a TCP group. -/
def sampleNoGroupConfig : ConfigFileInfo :=
  { UDPGroup := none
    TCPGroup := none }

/-- The sample environment with every storage request refused. -/
def sampleEnvNoStorage : Env :=
  { sampleEnv with AllocOk := fun _ => false }

/-- The sample environment with a UDP forwarder constructor that fails. -/
def sampleEnvUdpFails : Env :=
  { sampleEnv with UdpM_Init := fun _ _ => (-1, { Send := 0, Internal := 0 }) }

/-- The sample environment with a TCP forwarder constructor that fails. -/
def sampleEnvTcpFails : Env :=
  { sampleEnv with TcpM_Init := fun _ _ => (-1, { Send := 0, Internal := 0 }) }

/-- One UDP group `203.0.113.1 example.com ON` and one TCP group `203.0.113.1 example.com No`. -/
def sampleMixedConfig : ConfigFileInfo :=
  { UDPGroup := some [sampleServices, sampleDomains, sampleUpperOn]
    TCPGroup := some [sampleServices, sampleDomains, sampleMixedNo] }

/-- A sample query with an odd entity length: domain `a`, hash 5, entity length 41. -/
def sampleOddQuery : IHeader := { Domain := [97], HashValue := 5, EntityLength := 41 }

/-- A registry of three modules whose send routines are 10, 11 and 12. -/
def sampleState : State :=
  { Modules :=
      [ { ModuleUnion := .Udp { Send := 10, Internal := 0 }, Send := some 10, ModuleName := some "UDP" },
        { ModuleUnion := .Udp { Send := 11, Internal := 1 }, Send := some 11, ModuleName := some "UDP" },
        { ModuleUnion := .Tcp { Send := 12, Internal := 2 }, Send := some 12, ModuleName := some "TCP" } ]
    ModuleArray := [some 0, some 1, some 2]
    Distributor := []
    Allocs := 6
    Calls := [] }

end MMgr

namespace MMgr

/-! ## C strings -/

theorem tolower_ne_zero {c : Nat} (h : c ≠ 0) : tolower c ≠ 0 := by
  unfold tolower; split <;> omega

/-- Comparing the lowercased, truncated 8-byte copy of a C string with a two-letter literal is
comparing the lowercased string with that literal. -/
theorem strcmp_scratch_iff (p : CStr) (hp : 0 ∉ p) (x y : Nat) (hx : x ≠ 0) (hy : y ≠ 0) :
    strcmp (StrToLower ((strncpy p 8).set 7 0)) [x, y, 0] = 0 ↔ p.map tolower = [x, y] := by
  match p, hp with
  | [], _ =>
    simp [strncpy, StrToLower, strcmp]
    omega
  | [a], hp =>
    have ha : a ≠ 0 := by intro h; apply hp; simp [h]
    have ha2 := tolower_ne_zero ha
    simp [strncpy, StrToLower, strcmp, ha]
    intro h
    split_ifs at h <;> omega
  | [a, b], hp =>
    have ha : a ≠ 0 := by intro h; apply hp; simp [h]
    have hb : b ≠ 0 := by intro h; apply hp; simp [h]
    have ha2 := tolower_ne_zero ha
    have hb2 := tolower_ne_zero hb
    simp [strncpy, StrToLower, strcmp, ha, hb]
    constructor
    · intro h
      by_cases h1 : tolower a = x
      · by_cases h2 : tolower b = y
        · exact ⟨h1, h2⟩
        · simp [h1, h2, hx] at h; omega
      · simp [h1] at h; omega
    · rintro ⟨h1, h2⟩
      simp [h1, h2, hx, hy]
  | a :: b :: c :: rest, hp =>
    have ha : a ≠ 0 := by intro h; apply hp; simp [h]
    have hb : b ≠ 0 := by intro h; apply hp; simp [h]
    have hc : c ≠ 0 := by intro h; apply hp; simp [h]
    have hc2 := tolower_ne_zero hc
    simp [strncpy, StrToLower, strcmp, ha, hb, hc]
    intro h
    split_ifs at h <;> omega

theorem ParallelQuery_eq (p : CStr) (hp : 0 ∉ p) :
    ParallelQuery p = eqIgnoreCase p [111, 110] := by
  have h := strcmp_scratch_iff p hp 111 110 (by decide) (by decide)
  unfold ParallelQuery eqIgnoreCase lit_on
  by_cases hc : strcmp (StrToLower ((strncpy p 8).set 7 0)) [111, 110, 0] = 0
  · have := h.1 hc
    simp [hc, this, tolower]
  · have : ¬ p.map tolower = [111, 110] := fun h2 => hc (h.2 h2)
    simp [hc, this, tolower]

theorem ProxiesArg_eq (p : CStr) (hp : 0 ∉ p) :
    ProxiesArg p = if eqIgnoreCase p [110, 111] = true then none else some p := by
  have h := strcmp_scratch_iff p hp 110 111 (by decide) (by decide)
  unfold ProxiesArg eqIgnoreCase lit_no
  by_cases hc : strcmp (StrToLower ((strncpy p 8).set 7 0)) [110, 111, 0] = 0
  · have := h.1 hc
    simp [hc, this, tolower]
  · have : ¬ p.map tolower = [110, 111] := fun h2 => hc (h.2 h2)
    simp [hc, this, tolower]

/-! ## The registry and the group loops -/

theorem updateAt_length (f : ModuleInterface → ModuleInterface) (k : Nat) (l : List ModuleInterface) :
    (updateAt f k l).length = l.length := by
  induction l generalizing k with
  | nil => cases k <;> rfl
  | cons m ms ih =>
    cases k with
    | zero => rfl
    | succ k => simp [updateAt, ih]

theorem StoreAModule_some {env : Env} {st st1 : State} {k : Nat}
    (hs : StoreAModule env st = (some k, st1)) :
    st1.Modules.length = st.Modules.length + 1 ∧
    st1.ModuleArray = st.ModuleArray ++ [some k] ∧
    st1.Calls = st.Calls ∧ k = st.Modules.length := by
  have hnn : ¬ ((st.ModuleArray.length : Int) < 0) := by omega
  unfold StoreAModule Modules_Add Array_PushBack at hs
  by_cases h1 : env.AllocOk st.Allocs = true
  · by_cases h2 : env.AllocOk (st.Allocs + 1) = true
    · simp only [h1, h2, if_true, hnn, if_false, Prod.mk.injEq, Option.some.injEq] at hs
      obtain ⟨hk, hst⟩ := hs
      subst hst
      simp [State.assign, updateAt_length, hk]
    · simp [h1, h2] at hs
  · simp [h1] at hs

theorem StoreAModule_none {env : Env} {st st1 : State}
    (hs : StoreAModule env st = (none, st1)) :
    st1.ModuleArray = st.ModuleArray ∧ st1.Calls = st.Calls := by
  have hnn : ¬ ((st.ModuleArray.length : Int) < 0) := by omega
  unfold StoreAModule Modules_Add Array_PushBack at hs
  by_cases h1 : env.AllocOk st.Allocs = true
  · by_cases h2 : env.AllocOk (st.Allocs + 1) = true
    · simp [h1, h2, hnn] at hs
    · simp [h1, h2] at hs
      subst hs
      simp
  · simp [h1] at hs
    subst hs
    simp

theorem MappingAModule_frame (env : Env) (k : Nat) (d : CStr) (st : State) :
    (MappingAModule env k d st).2.Modules = st.Modules ∧
    (MappingAModule env k d st).2.ModuleArray = st.ModuleArray ∧
    (MappingAModule env k d st).2.Calls = st.Calls := by
  unfold MappingAModule
  cases env.StringList_Init d [44] with
  | none => simp
  | some l =>
    by_cases hi : env.StringListIterator_Init (env.LowercaseAll (env.TrimAll l [9, 32, 46])) = 0
    · simp [hi]
    · simp [hi]

theorem Udp_body_frame (env : Env) (s d p : CStr) (k : Nat) (st : State) :
    (Udp_body env s d p k st).Modules.length = st.Modules.length ∧
    (Udp_body env s d p k st).ModuleArray = st.ModuleArray ∧
    (Udp_body env s d p k st).Calls = st.Calls ++ [.UdpM_Init s (ParallelQuery p)] := by
  unfold Udp_body
  by_cases hr : (env.UdpM_Init s (ParallelQuery p)).1 = 0
  · simp [hr, MappingAModule_frame, State.assign, updateAt_length]
  · simp [hr, State.assign, updateAt_length]

theorem Tcp_body_frame (env : Env) (s d p : CStr) (k : Nat) (st : State) :
    (Tcp_body env s d p k st).Modules.length = st.Modules.length ∧
    (Tcp_body env s d p k st).ModuleArray = st.ModuleArray ∧
    (Tcp_body env s d p k st).Calls = st.Calls ++ [.TcpM_Init s (ProxiesArg p)] := by
  unfold Tcp_body
  by_cases hr : (env.TcpM_Init s (ProxiesArg p)).1 = 0
  · simp [hr, MappingAModule_frame, State.assign, updateAt_length]
  · simp [hr, State.assign, updateAt_length]

/-- Induction over a field list three fields at a time. -/
theorem triple_induction {P : List CStr → Prop} (h0 : P []) (h1 : ∀ a, P [a])
    (h2 : ∀ a b, P [a, b]) (h3 : ∀ s d p rest, P rest → P (s :: d :: p :: rest)) :
    ∀ l, P l
  | [] => h0
  | [a] => h1 a
  | [a, b] => h2 a b
  | s :: d :: p :: rest => h3 s d p rest (triple_induction h0 h1 h2 h3 rest)

theorem triplets_mem {l : List CStr} {t : CStr × CStr × CStr} (ht : t ∈ triplets l) :
    t.2.2 ∈ l := by
  induction l using triple_induction with
  | h0 => simp [triplets] at ht
  | h1 a => simp [triplets] at ht
  | h2 a b => simp [triplets] at ht
  | h3 s d p rest ih =>
    simp only [triplets, List.mem_cons] at ht
    rcases ht with ht | ht
    · subst ht
      simp
    · have := ih ht
      simp [this]

theorem Udp_loop_eq (env : Env) (l : List CStr) (st : State) :
    Udp_loop env l st = groupLoop env (-101) (Udp_body env) l st := by
  induction l using triple_induction generalizing st with
  | h0 => rfl
  | h1 a => rfl
  | h2 a b => rfl
  | h3 s d p rest ih =>
    simp only [Udp_loop, groupLoop]
    split <;> simp [ih]

theorem Tcp_loop_eq (env : Env) (l : List CStr) (st : State) :
    Tcp_loop env l st = groupLoop env (-192) (Tcp_body env) l st := by
  induction l using triple_induction generalizing st with
  | h0 => rfl
  | h1 a => rfl
  | h2 a b => rfl
  | h3 s d p rest ih =>
    simp only [Tcp_loop, groupLoop]
    split <;> simp [ih]

/-- The constructions requested by a group loop follow the triplets in order; all of them are
requested when the loop returns 0. -/
theorem groupLoop_calls (env : Env) (code : Int) (hcode : code ≠ 0)
    (body : CStr → CStr → CStr → Nat → State → State) (F : CStr × CStr × CStr → InitCall)
    (hb : ∀ s d p k st, (body s d p k st).Calls = st.Calls ++ [F (s, d, p)])
    (l : List CStr) (st : State) :
    (∃ n, (groupLoop env code body l st).2.Calls = st.Calls ++ ((triplets l).take n).map F) ∧
    ((groupLoop env code body l st).1 = 0 →
      (groupLoop env code body l st).2.Calls = st.Calls ++ (triplets l).map F) := by
  induction l using triple_induction generalizing st with
  | h0 => exact ⟨⟨0, by simp [groupLoop, triplets]⟩, by simp [groupLoop, triplets]⟩
  | h1 a => exact ⟨⟨0, by simp [groupLoop, triplets]⟩, by simp [groupLoop, triplets]⟩
  | h2 a b => exact ⟨⟨0, by simp [groupLoop, triplets]⟩, by simp [groupLoop, triplets]⟩
  | h3 s d p rest ih =>
    rcases hst : StoreAModule env st with ⟨_ | k, st1⟩
    · have hc := (StoreAModule_none hst).2
      simp only [groupLoop, hst]
      exact ⟨⟨0, by simp [hc]⟩, fun h => absurd h hcode⟩
    · have hc := (StoreAModule_some hst).2.2.1
      obtain ⟨⟨n, hn⟩, hall⟩ := ih (body s d p k st1)
      simp only [groupLoop, hst]
      refine ⟨⟨n + 1, ?_⟩, ?_⟩
      · rw [hn, hb, hc]
        simp [triplets]
      · intro h0
        rw [hall h0, hb, hc]
        simp [triplets]

/-- A group loop that returns 0 registered one module for each complete triplet. -/
theorem groupLoop_count (env : Env) (code : Int) (hcode : code ≠ 0)
    (body : CStr → CStr → CStr → Nat → State → State)
    (hb : ∀ s d p k st, (body s d p k st).ModuleArray = st.ModuleArray)
    (l : List CStr) (st : State) (h0 : (groupLoop env code body l st).1 = 0) :
    (groupLoop env code body l st).2.ModuleArray.length = st.ModuleArray.length + l.length / 3 := by
  induction l using triple_induction generalizing st with
  | h0 => simp [groupLoop]
  | h1 a => simp [groupLoop]
  | h2 a b => simp [groupLoop]
  | h3 s d p rest ih =>
    rcases hst : StoreAModule env st with ⟨_ | k, st1⟩
    · simp only [groupLoop, hst] at h0
      exact absurd h0 hcode
    · simp only [groupLoop, hst] at h0
      obtain ⟨-, ha, -, -⟩ := StoreAModule_some hst
      simp only [groupLoop, hst]
      rw [ih _ h0, hb, ha]
      simp only [List.length_append, List.length_cons, List.length_nil]
      omega

/-- A group loop whose first triplet cannot be stored returns its code at once, in the state the
failed `StoreAModule` left. -/
theorem groupLoop_refused (env : Env) (code : Int)
    (body : CStr → CStr → CStr → Nat → State → State) (s d p : CStr) (rest : List CStr)
    (st : State) (hnone : (StoreAModule env st).1 = none) :
    groupLoop env code body (s :: d :: p :: rest) st = (code, (StoreAModule env st).2) := by
  rcases hst : StoreAModule env st with ⟨_ | k, st1⟩
  · simp [groupLoop, hst]
  · rw [hst] at hnone
    cases hnone

theorem StoreAModule_refused {env : Env} {st : State} (hnone : (StoreAModule env st).1 = none) :
    (StoreAModule env st).2.ModuleArray = st.ModuleArray ∧
    (StoreAModule env st).2.Calls = st.Calls := by
  have h : StoreAModule env st = (none, (StoreAModule env st).2) := by
    rw [← hnone]
  exact StoreAModule_none h

/-- A group loop over a field list that starts with complete triplets, all stored, continues on
the remaining fields from the state the first part leaves. -/
theorem groupLoop_append (env : Env) (code : Int) (hcode : code ≠ 0)
    (body : CStr → CStr → CStr → Nat → State → State) (pre more : List CStr) (st : State)
    (hlen : pre.length % 3 = 0) (hpre : (groupLoop env code body pre st).1 = 0) :
    groupLoop env code body (pre ++ more) st =
      groupLoop env code body more (groupLoop env code body pre st).2 := by
  induction pre using triple_induction generalizing st with
  | h0 => simp [groupLoop]
  | h1 a => simp at hlen
  | h2 a b => simp at hlen
  | h3 s d p rest ih =>
    have hlen2 : rest.length % 3 = 0 := by
      simp only [List.length_cons] at hlen
      omega
    rcases hst : StoreAModule env st with ⟨_ | k, st1⟩
    · simp only [groupLoop, hst] at hpre
      exact absurd hpre hcode
    · simp only [groupLoop, hst] at hpre
      simp only [List.cons_append, groupLoop, hst]
      exact ih _ hlen2 hpre

/-! ## Dispatch -/

/-- C4. When a local collaborator gives a definitive outcome (the filter discards the query, or
the hosts file answers it, or the cache answers it), `MMgr_Send` returns 0, makes no domain lookup
and no send call, and the collaborators after the first definitive one are not called. -/
theorem MMgr_Send_local_outcome (env : Env) (st : State) (h : IHeader) (BufferLength : Int)
    (hdef : env.Filter_Out h = true ∨ env.Hosts_Get h BufferLength = 0 ∨
      env.DNSCache_FetchFromCache h BufferLength = 0) :
    (MMgr_Send env st h BufferLength).1 = .ok 0 ∧
    matchCalls (MMgr_Send env st h BufferLength).2 = [] ∧
    sendCalls (MMgr_Send env st h BufferLength).2 = [] ∧
    (env.Filter_Out h = true →
      (MMgr_Send env st h BufferLength).2 = [.Filter_Out h]) ∧
    (env.Filter_Out h = false → env.Hosts_Get h BufferLength = 0 →
      (MMgr_Send env st h BufferLength).2 = [.Filter_Out h, .Hosts_Get h BufferLength]) ∧
    (env.Filter_Out h = false → env.Hosts_Get h BufferLength ≠ 0 →
      env.DNSCache_FetchFromCache h BufferLength = 0 →
      (MMgr_Send env st h BufferLength).2 =
        [.Filter_Out h, .Hosts_Get h BufferLength, .DNSCache_FetchFromCache h BufferLength]) := by
  by_cases hf : env.Filter_Out h = true
  · simp [MMgr_Send, hf, matchCalls, sendCalls]
  · by_cases hh : env.Hosts_Get h BufferLength = 0
    · simp [MMgr_Send, hf, hh, matchCalls, sendCalls]
    · have hc : env.DNSCache_FetchFromCache h BufferLength = 0 := by
        rcases hdef with h1 | h1 | h1
        · exact absurd h1 hf
        · exact absurd h1 hh
        · exact h1
      simp [MMgr_Send, hf, hh, hc, matchCalls, sendCalls]

/-- Witness of C4: a query the hosts file answers. -/
theorem MMgr_Send_local_outcome_witness :
    (MMgr_Send { sampleEnv with Hosts_Get := fun _ _ => 0 }
        State.empty sampleQuery 512).1 = .ok 0 :=
  (MMgr_Send_local_outcome _ State.empty sampleQuery 512 (Or.inr (Or.inl rfl))).1

/-- C3. A query that passes the filter, is answered by neither hosts nor cache and matches no
domain, with an empty registry: `MMgr_Send` returns -190, which differs from the handled outcome 0,
and makes no send call. -/
theorem MMgr_Send_no_route (env : Env) (st : State) (h : IHeader) (BufferLength : Int)
    (hf : env.Filter_Out h = false) (hh : env.Hosts_Get h BufferLength ≠ 0)
    (hc : env.DNSCache_FetchFromCache h BufferLength ≠ 0)
    (hm : env.StringChunk_Domain_Match st.Distributor h.Domain h.HashValue = none)
    (he : Array_GetUsed st.ModuleArray = 0) :
    (MMgr_Send env st h BufferLength).1 = .ok (-190) ∧
    sendCalls (MMgr_Send env st h BufferLength).2 = [] ∧
    (MMgr_Send env st h BufferLength).1 ≠ .ok 0 := by
  simp [MMgr_Send, hf, hh, hc, MMgr_Send_route, hm, he, MMgr_Send_forward, sendCalls]

/-- Witness of C3: the empty registry. -/
theorem MMgr_Send_no_route_witness :
    (MMgr_Send sampleEnv
        State.empty sampleQuery 512).1 = .ok (-190) :=
  (MMgr_Send_no_route _ State.empty sampleQuery 512 rfl (by decide) (by decide) rfl rfl).1

/-- C1. A query that passes the filter, is answered by neither hosts nor cache and matches no
domain, with `N > 0` registered routes: the route selected is the element of `ModuleArray` at
position `EntityLength mod N`; any query with the same entity length (and no domain match) selects
the same route; and the send call goes to that route. -/
theorem MMgr_Send_fallback (env : Env) (st : State) (h : IHeader) (BufferLength : Int)
    (hf : env.Filter_Out h = false) (hh : env.Hosts_Get h BufferLength ≠ 0)
    (hc : env.DNSCache_FetchFromCache h BufferLength ≠ 0)
    (hm : env.StringChunk_Domain_Match st.Distributor h.Domain h.HashValue = none)
    (hN : 0 < Array_GetUsed st.ModuleArray) :
    ∃ p : ModulePtr,
      st.ModuleArray[h.EntityLength % Array_GetUsed st.ModuleArray]? = some p ∧
      MMgr_Send_route env st h = some p ∧
      (∀ h2 : IHeader,
        env.StringChunk_Domain_Match st.Distributor h2.Domain h2.HashValue = none →
        h2.EntityLength = h.EntityLength → MMgr_Send_route env st h2 = some p) ∧
      (∀ k m f, p = some k → st.Modules[k]? = some m → m.Send = some f →
        MMgr_Send env st h BufferLength =
          (.ok (env.Invoke f m.ModuleUnion h BufferLength),
            [.Filter_Out h, .Hosts_Get h BufferLength, .DNSCache_FetchFromCache h BufferLength,
              .StringChunk_Domain_Match h.Domain h.HashValue, .Send f k h BufferLength])) := by
  have hlt : h.EntityLength % Array_GetUsed st.ModuleArray < st.ModuleArray.length :=
    Nat.mod_lt _ hN
  obtain ⟨p, hp⟩ : ∃ p, st.ModuleArray[h.EntityLength % Array_GetUsed st.ModuleArray]? = some p :=
    ⟨_, List.getElem?_eq_getElem hlt⟩
  refine ⟨p, hp, ?_, ?_, ?_⟩
  · simp [MMgr_Send_route, hm, hN, Array_GetBySubscript, hp]
  · intro h2 hm2 hL
    simp [MMgr_Send_route, hm2, hN, Array_GetBySubscript, hL, hp]
  · intro k m f hk hmod hs
    subst hk
    simp [MMgr_Send, hf, hh, hc, MMgr_Send_route, hm, hN, Array_GetBySubscript, hp,
      MMgr_Send_forward, hmod, hs]

/-- Witness of C1: entity length 40 and three routes select position 1. -/
theorem MMgr_Send_fallback_witness :
    ∃ p : ModulePtr,
      sampleState.ModuleArray[40 % 3]? = some p ∧
      MMgr_Send_route sampleEnv sampleState sampleQuery = some p :=
  match MMgr_Send_fallback sampleEnv sampleState sampleQuery 512 rfl (by decide) (by decide) rfl
      (by decide) with
  | ⟨p, h1, h2, _⟩ => ⟨p, h1, h2⟩

/-- Dispatch to a route whose `Send` field was assigned. Such a route, selected by a domain match
(whatever the registry holds) or, without a domain match, by the fallback, has its send routine
called exactly once, on the header and buffer length `MMgr_Send` was given, and `MMgr_Send` returns
what that call returned. -/
theorem MMgr_Send_selected (env : Env) (st : State) (h : IHeader) (BufferLength : Int)
    (k : Nat) (m : ModuleInterface) (f : SendFunc)
    (hf : env.Filter_Out h = false) (hh : env.Hosts_Get h BufferLength ≠ 0)
    (hc : env.DNSCache_FetchFromCache h BufferLength ≠ 0)
    (hsel : env.StringChunk_Domain_Match st.Distributor h.Domain h.HashValue = some (some (some k)) ∨
      (env.StringChunk_Domain_Match st.Distributor h.Domain h.HashValue = none ∧
        0 < Array_GetUsed st.ModuleArray ∧
        Array_GetBySubscript st.ModuleArray (h.EntityLength % Array_GetUsed st.ModuleArray) =
          some (some k)))
    (hmod : st.Modules[k]? = some m) (hs : m.Send = some f) :
    (MMgr_Send env st h BufferLength).1 = .ok (env.Invoke f m.ModuleUnion h BufferLength) ∧
    sendCalls (MMgr_Send env st h BufferLength).2 = [.Send f k h BufferLength] ∧
    (MMgr_Send env st h BufferLength).2 =
      [.Filter_Out h, .Hosts_Get h BufferLength, .DNSCache_FetchFromCache h BufferLength,
        .StringChunk_Domain_Match h.Domain h.HashValue, .Send f k h BufferLength] := by
  rcases hsel with hm | ⟨hm, hN, hp⟩
  · simp [MMgr_Send, hf, hh, hc, MMgr_Send_route, hm, MMgr_Send_forward, hmod, hs, sendCalls]
  · simp [MMgr_Send, hf, hh, hc, MMgr_Send_route, hm, hN, hp, MMgr_Send_forward, hmod, hs,
      sendCalls]

/-- A domain match on the third route wins over the fallback position 1. -/
theorem MMgr_Send_selected_witness :
    (MMgr_Send { sampleEnv with StringChunk_Domain_Match := fun _ _ _ => some (some (some 2)) }
        sampleState sampleQuery 512).1 = .ok 524 :=
  (MMgr_Send_selected { sampleEnv with StringChunk_Domain_Match := fun _ _ _ => some (some (some 2)) }
    sampleState sampleQuery 512 2
    { ModuleUnion := .Tcp { Send := 12, Internal := 2 }, Send := some 12, ModuleName := some "TCP" }
    12 rfl (by decide) (by decide) (Or.inl rfl) rfl rfl).1

/-! ## Initialisation -/

/-- C9. The parallel flag `Udp_Init` passes to `UdpM_Init` for a triplet is TRUE exactly when the
third field equals `on` up to letter case: the constructions requested follow the triplets in
order, each with the services field and that flag, and all triplets are covered when `Udp_Init`
returns 0. The empty string and a long string that begins with `on` give FALSE. -/
theorem Udp_Init_parallel_flag (env : Env) (ConfigInfo : ConfigFileInfo) (st : State)
    (fields : List CStr) (hcfg : ConfigInfo.UDPGroup = some fields)
    (hnul : ∀ f ∈ fields, 0 ∉ f) :
    (∃ n, (Udp_Init env ConfigInfo st).2.Calls =
      st.Calls ++ ((triplets fields).take n).map
        (fun t => InitCall.UdpM_Init t.1 (eqIgnoreCase t.2.2 [111, 110]))) ∧
    ((Udp_Init env ConfigInfo st).1 = 0 →
      (Udp_Init env ConfigInfo st).2.Calls =
        st.Calls ++ (triplets fields).map
          (fun t => InitCall.UdpM_Init t.1 (eqIgnoreCase t.2.2 [111, 110]))) ∧
    ParallelQuery [] = false ∧
    ParallelQuery sampleLongOn = false := by
  have hF : ∀ t ∈ triplets fields,
      InitCall.UdpM_Init t.1 (ParallelQuery t.2.2) =
        InitCall.UdpM_Init t.1 (eqIgnoreCase t.2.2 [111, 110]) := by
    intro t ht
    rw [ParallelQuery_eq _ (hnul _ (triplets_mem ht))]
  have hloop := groupLoop_calls env (-101) (by decide) (Udp_body env)
    (fun t => InitCall.UdpM_Init t.1 (ParallelQuery t.2.2))
    (fun s d p k st => (Udp_body_frame env s d p k st).2.2) fields st
  refine ⟨?_, ?_, by decide, by decide⟩
  · unfold Udp_Init
    rw [hcfg]
    by_cases hi : env.StringListIterator_Init fields = 0
    · obtain ⟨n, hn⟩ := hloop.1
      refine ⟨n, ?_⟩
      simp only [hi, ne_eq, not_true_eq_false, if_false, Udp_loop_eq, hn]
      congr 1
      exact List.map_congr_left (fun t ht => hF t (List.mem_of_mem_take ht))
    · exact ⟨0, by simp [hi]⟩
  · unfold Udp_Init
    rw [hcfg]
    by_cases hi : env.StringListIterator_Init fields = 0
    · simp only [hi, ne_eq, not_true_eq_false, if_false, Udp_loop_eq]
      intro h0
      rw [hloop.2 h0]
      congr 1
      exact List.map_congr_left hF
    · simp [hi]

/-- Witness of C9: the field `ON` switches parallel querying on. -/
theorem Udp_Init_parallel_flag_witness :
    (Udp_Init sampleEnv sampleUdpConfig State.empty).2.Calls =
      [InitCall.UdpM_Init sampleServices true] :=
  ((Udp_Init_parallel_flag sampleEnv sampleUdpConfig State.empty
      [sampleServices, sampleDomains, sampleUpperOn] rfl (by decide)).2.1 rfl).trans (by decide)

/-- C8. The proxy argument `Tcp_Init` passes to `TcpM_Init` for a triplet is `NULL` exactly when
the third field equals `no` up to letter case; any other third field is passed as it is. The
constructions requested follow the triplets in order, and all triplets are covered when `Tcp_Init`
returns 0. -/
theorem Tcp_Init_proxy_argument (env : Env) (ConfigInfo : ConfigFileInfo) (st : State)
    (fields : List CStr) (hcfg : ConfigInfo.TCPGroup = some fields)
    (hnul : ∀ f ∈ fields, 0 ∉ f) :
    (∃ n, (Tcp_Init env ConfigInfo st).2.Calls =
      st.Calls ++ ((triplets fields).take n).map
        (fun t => InitCall.TcpM_Init t.1
          (if eqIgnoreCase t.2.2 [110, 111] = true then none else some t.2.2))) ∧
    ((Tcp_Init env ConfigInfo st).1 = 0 →
      (Tcp_Init env ConfigInfo st).2.Calls =
        st.Calls ++ (triplets fields).map
          (fun t => InitCall.TcpM_Init t.1
            (if eqIgnoreCase t.2.2 [110, 111] = true then none else some t.2.2))) := by
  have hF : ∀ t ∈ triplets fields,
      InitCall.TcpM_Init t.1 (ProxiesArg t.2.2) =
        InitCall.TcpM_Init t.1
          (if eqIgnoreCase t.2.2 [110, 111] = true then none else some t.2.2) := by
    intro t ht
    rw [ProxiesArg_eq _ (hnul _ (triplets_mem ht))]
  have hloop := groupLoop_calls env (-192) (by decide) (Tcp_body env)
    (fun t => InitCall.TcpM_Init t.1 (ProxiesArg t.2.2))
    (fun s d p k st => (Tcp_body_frame env s d p k st).2.2) fields st
  refine ⟨?_, ?_⟩
  · unfold Tcp_Init
    rw [hcfg]
    by_cases hi : env.StringListIterator_Init fields = 0
    · obtain ⟨n, hn⟩ := hloop.1
      refine ⟨n, ?_⟩
      simp only [hi, ne_eq, not_true_eq_false, if_false, Tcp_loop_eq, hn]
      congr 1
      exact List.map_congr_left (fun t ht => hF t (List.mem_of_mem_take ht))
    · exact ⟨0, by simp [hi]⟩
  · unfold Tcp_Init
    rw [hcfg]
    by_cases hi : env.StringListIterator_Init fields = 0
    · simp only [hi, ne_eq, not_true_eq_false, if_false, Tcp_loop_eq]
      intro h0
      rw [hloop.2 h0]
      congr 1
      exact List.map_congr_left hF
    · simp [hi]

/-- Witness of C8: the field `No` disables the proxy, a SOCKS5 address is passed unchanged. -/
theorem Tcp_Init_proxy_argument_witness :
    (Tcp_Init sampleEnv sampleTcpConfig State.empty).2.Calls =
      [InitCall.TcpM_Init sampleServices none, InitCall.TcpM_Init sampleServices (some sampleProxy)] :=
  ((Tcp_Init_proxy_argument sampleEnv sampleTcpConfig State.empty
      [sampleServices, sampleDomains, sampleMixedNo, sampleServices, sampleDomains, sampleProxy]
      rfl (by decide)).2 rfl).trans (by decide)

/-- C7. When the filter, hosts, cache, ip-misc and storage initialisations succeed, `MMgr_Init`
runs `Udp_Init` and then `Tcp_Init` on the state `Udp_Init` left, returns 0 exactly when at least
one of the two returned 0 and non-zero exactly when both failed; with neither group configured both
return 0 and so does `MMgr_Init`. -/
theorem MMgr_Init_usable_iff (env : Env) (ConfigInfo : ConfigFileInfo)
    (h1 : env.Filter_Init ConfigInfo = 0) (h2 : env.Hosts_Init ConfigInfo = 0)
    (h3 : env.DNSCache_Init ConfigInfo = 0) (h4 : env.IpMiscSingleton_Init ConfigInfo = 0)
    (h5 : env.StringChunk_Init = 0) (h6 : env.StableBuffer_Init = 0) (h7 : env.Array_Init = 0) :
    ((MMgr_Init env ConfigInfo).1 = 0 ↔
      ((Udp_Init env ConfigInfo State.empty).1 = 0 ∨
        (Tcp_Init env ConfigInfo (Udp_Init env ConfigInfo State.empty).2).1 = 0)) ∧
    ((MMgr_Init env ConfigInfo).1 ≠ 0 ↔
      ((Udp_Init env ConfigInfo State.empty).1 ≠ 0 ∧
        (Tcp_Init env ConfigInfo (Udp_Init env ConfigInfo State.empty).2).1 ≠ 0)) ∧
    (MMgr_Init env ConfigInfo).2 =
      (Tcp_Init env ConfigInfo (Udp_Init env ConfigInfo State.empty).2).2 ∧
    (ConfigInfo.UDPGroup = none → ConfigInfo.TCPGroup = none →
      (Udp_Init env ConfigInfo State.empty).1 = 0 ∧
      (Tcp_Init env ConfigInfo (Udp_Init env ConfigInfo State.empty).2).1 = 0 ∧
      (MMgr_Init env ConfigInfo).1 = 0) := by
  have hret : (MMgr_Init env ConfigInfo).1 =
      if (Udp_Init env ConfigInfo State.empty).1 = 0 ∨
        (Tcp_Init env ConfigInfo (Udp_Init env ConfigInfo State.empty).2).1 = 0 then 0 else 1 := by
    simp [MMgr_Init, h1, h2, h3, h4, h5, h6, h7]
  have hst : (MMgr_Init env ConfigInfo).2 =
      (Tcp_Init env ConfigInfo (Udp_Init env ConfigInfo State.empty).2).2 := by
    simp [MMgr_Init, h1, h2, h3, h4, h5, h6, h7]
  refine ⟨?_, ?_, hst, ?_⟩
  · rw [hret]
    by_cases ha : (Udp_Init env ConfigInfo State.empty).1 = 0 <;>
      by_cases hb : (Tcp_Init env ConfigInfo (Udp_Init env ConfigInfo State.empty).2).1 = 0 <;>
      simp [ha, hb]
  · rw [hret]
    by_cases ha : (Udp_Init env ConfigInfo State.empty).1 = 0 <;>
      by_cases hb : (Tcp_Init env ConfigInfo (Udp_Init env ConfigInfo State.empty).2).1 = 0 <;>
      simp [ha, hb]
  · intro hu ht
    have e1 : (Udp_Init env ConfigInfo State.empty).1 = 0 := by simp [Udp_Init, hu]
    have e2 : (Tcp_Init env ConfigInfo (Udp_Init env ConfigInfo State.empty).2).1 = 0 := by
      simp [Tcp_Init, ht]
    refine ⟨e1, e2, ?_⟩
    rw [hret]
    simp [e1]

/-- Witness of C7: no group configured at all. -/
theorem MMgr_Init_usable_iff_witness : (MMgr_Init sampleEnv sampleNoGroupConfig).1 = 0 :=
  ((MMgr_Init_usable_iff sampleEnv sampleNoGroupConfig rfl rfl rfl rfl rfl rfl rfl).2.2.2
    rfl rfl).2.2

/-- Counterexample to C6: every storage request is refused, so `StoreAModule` returns `NULL` for
the only UDP triplet and `Udp_Init` returns -101; no TCP group is configured, `Tcp_Init` returns 0,
and `MMgr_Init` returns 0. -/
theorem storage_failure_not_fatal :
    sampleEnvNoStorage.Filter_Init sampleUdpConfig = 0 ∧
    sampleEnvNoStorage.Hosts_Init sampleUdpConfig = 0 ∧
    sampleEnvNoStorage.DNSCache_Init sampleUdpConfig = 0 ∧
    sampleEnvNoStorage.IpMiscSingleton_Init sampleUdpConfig = 0 ∧
    sampleEnvNoStorage.StringChunk_Init = 0 ∧
    sampleEnvNoStorage.StableBuffer_Init = 0 ∧
    sampleEnvNoStorage.Array_Init = 0 ∧
    (StoreAModule sampleEnvNoStorage State.empty).1 = none ∧
    (Udp_Init sampleEnvNoStorage sampleUdpConfig State.empty).1 = -101 ∧
    (MMgr_Init sampleEnvNoStorage sampleUdpConfig).1 = 0 := by
  decide

/-- C6, amended. When `StoreAModule` returns `NULL` for a triplet of `Udp_Init` (of `Tcp_Init`),
that initialiser stops at once and returns -101 (-192): the state it leaves is the one the failed
`StoreAModule` left, the registry holds one route for each triplet before the failing one and
nothing for the failing or the later ones, and forwarder constructions were requested for the
triplets before the failing one only. `MMgr_Init` then returns non-zero exactly when the other
group initialiser returns non-zero as well. -/
theorem MMgr_Init_storage_failure (env : Env) (ConfigInfo : ConfigFileInfo)
    (h1 : env.Filter_Init ConfigInfo = 0) (h2 : env.Hosts_Init ConfigInfo = 0)
    (h3 : env.DNSCache_Init ConfigInfo = 0) (h4 : env.IpMiscSingleton_Init ConfigInfo = 0)
    (h5 : env.StringChunk_Init = 0) (h6 : env.StableBuffer_Init = 0) (h7 : env.Array_Init = 0) :
    (∀ pre s d p rest, ConfigInfo.UDPGroup = some (pre ++ s :: d :: p :: rest) →
      env.StringListIterator_Init (pre ++ s :: d :: p :: rest) = 0 →
      pre.length % 3 = 0 → (Udp_loop env pre State.empty).1 = 0 →
      (StoreAModule env (Udp_loop env pre State.empty).2).1 = none →
      (Udp_Init env ConfigInfo State.empty).1 = -101 ∧
      (Udp_Init env ConfigInfo State.empty).2 =
        (StoreAModule env (Udp_loop env pre State.empty).2).2 ∧
      (Udp_Init env ConfigInfo State.empty).2.ModuleArray.length = pre.length / 3 ∧
      (Udp_Init env ConfigInfo State.empty).2.Calls =
        (triplets pre).map (fun t => InitCall.UdpM_Init t.1 (ParallelQuery t.2.2)) ∧
      ((MMgr_Init env ConfigInfo).1 ≠ 0 ↔
        (Tcp_Init env ConfigInfo (Udp_Init env ConfigInfo State.empty).2).1 ≠ 0)) ∧
    (∀ pre s d p rest, ConfigInfo.TCPGroup = some (pre ++ s :: d :: p :: rest) →
      env.StringListIterator_Init (pre ++ s :: d :: p :: rest) = 0 →
      pre.length % 3 = 0 →
      (Tcp_loop env pre (Udp_Init env ConfigInfo State.empty).2).1 = 0 →
      (StoreAModule env (Tcp_loop env pre (Udp_Init env ConfigInfo State.empty).2).2).1 = none →
      (Tcp_Init env ConfigInfo (Udp_Init env ConfigInfo State.empty).2).1 = -192 ∧
      (Tcp_Init env ConfigInfo (Udp_Init env ConfigInfo State.empty).2).2 =
        (StoreAModule env (Tcp_loop env pre (Udp_Init env ConfigInfo State.empty).2).2).2 ∧
      (Tcp_Init env ConfigInfo (Udp_Init env ConfigInfo State.empty).2).2.ModuleArray.length =
        (Udp_Init env ConfigInfo State.empty).2.ModuleArray.length + pre.length / 3 ∧
      (Tcp_Init env ConfigInfo (Udp_Init env ConfigInfo State.empty).2).2.Calls =
        (Udp_Init env ConfigInfo State.empty).2.Calls ++
          (triplets pre).map (fun t => InitCall.TcpM_Init t.1 (ProxiesArg t.2.2)) ∧
      ((MMgr_Init env ConfigInfo).1 ≠ 0 ↔ (Udp_Init env ConfigInfo State.empty).1 ≠ 0)) := by
  have hret : (MMgr_Init env ConfigInfo).1 =
      if (Udp_Init env ConfigInfo State.empty).1 = 0 ∨
        (Tcp_Init env ConfigInfo (Udp_Init env ConfigInfo State.empty).2).1 = 0 then 0 else 1 := by
    simp [MMgr_Init, h1, h2, h3, h4, h5, h6, h7]
  constructor
  · intro pre s d p rest hcfg hi hlen hpre hnone
    rw [Udp_loop_eq] at hpre hnone ⊢
    have hrun : Udp_Init env ConfigInfo State.empty =
        (-101, (StoreAModule env (groupLoop env (-101) (Udp_body env) pre State.empty).2).2) := by
      unfold Udp_Init
      simp only [hcfg, hi, ne_eq, not_true_eq_false, if_false, Udp_loop_eq]
      rw [groupLoop_append env (-101) (by decide) (Udp_body env) pre (s :: d :: p :: rest)
        State.empty hlen hpre]
      exact groupLoop_refused env (-101) (Udp_body env) s d p rest _ hnone
    have hu : (Udp_Init env ConfigInfo State.empty).1 = -101 := by rw [hrun]
    have hcount := groupLoop_count env (-101) (by decide) (Udp_body env)
      (fun s d p k st => (Udp_body_frame env s d p k st).2.1) pre State.empty hpre
    have hcalls := (groupLoop_calls env (-101) (by decide) (Udp_body env)
      (fun t => InitCall.UdpM_Init t.1 (ParallelQuery t.2.2))
      (fun s d p k st => (Udp_body_frame env s d p k st).2.2) pre State.empty).2 hpre
    obtain ⟨ra, rc⟩ := StoreAModule_refused hnone
    refine ⟨hu, by rw [hrun], ?_, ?_, ?_⟩
    · rw [hrun]
      dsimp only
      rw [ra, hcount]
      simp [State.empty]
    · rw [hrun]
      dsimp only
      rw [rc, hcalls]
      simp [State.empty]
    · rw [hret, hu]
      by_cases hb : (Tcp_Init env ConfigInfo (Udp_Init env ConfigInfo State.empty).2).1 = 0 <;>
        simp [hb]
  · intro pre s d p rest hcfg hi hlen hpre hnone
    rw [Tcp_loop_eq] at hpre hnone ⊢
    have hrun : Tcp_Init env ConfigInfo (Udp_Init env ConfigInfo State.empty).2 =
        (-192, (StoreAModule env (groupLoop env (-192) (Tcp_body env) pre
          (Udp_Init env ConfigInfo State.empty).2).2).2) := by
      unfold Tcp_Init
      simp only [hcfg, hi, ne_eq, not_true_eq_false, if_false, Tcp_loop_eq]
      rw [groupLoop_append env (-192) (by decide) (Tcp_body env) pre (s :: d :: p :: rest)
        (Udp_Init env ConfigInfo State.empty).2 hlen hpre]
      exact groupLoop_refused env (-192) (Tcp_body env) s d p rest _ hnone
    have ht : (Tcp_Init env ConfigInfo (Udp_Init env ConfigInfo State.empty).2).1 = -192 := by
      rw [hrun]
    have hcount := groupLoop_count env (-192) (by decide) (Tcp_body env)
      (fun s d p k st => (Tcp_body_frame env s d p k st).2.1) pre
      (Udp_Init env ConfigInfo State.empty).2 hpre
    have hcalls := (groupLoop_calls env (-192) (by decide) (Tcp_body env)
      (fun t => InitCall.TcpM_Init t.1 (ProxiesArg t.2.2))
      (fun s d p k st => (Tcp_body_frame env s d p k st).2.2) pre
      (Udp_Init env ConfigInfo State.empty).2).2 hpre
    obtain ⟨ra, rc⟩ := StoreAModule_refused hnone
    refine ⟨ht, by rw [hrun], ?_, ?_, ?_⟩
    · rw [hrun]
      dsimp only
      rw [ra, hcount]
    · rw [hrun]
      dsimp only
      rw [rc, hcalls]
    · rw [hret, ht]
      by_cases ha : (Udp_Init env ConfigInfo State.empty).1 = 0 <;> simp [ha]

/-- Witness of C6, amended: storage is refused for the first UDP triplet, so nothing is registered
and no construction is requested. -/
theorem MMgr_Init_storage_failure_witness :
    (Udp_Init sampleEnvNoStorage sampleUdpConfig State.empty).1 = -101 ∧
    (Udp_Init sampleEnvNoStorage sampleUdpConfig State.empty).2.ModuleArray.length = 0 / 3 ∧
    ((MMgr_Init sampleEnvNoStorage sampleUdpConfig).1 ≠ 0 ↔
      (Tcp_Init sampleEnvNoStorage sampleUdpConfig
        (Udp_Init sampleEnvNoStorage sampleUdpConfig State.empty).2).1 ≠ 0) :=
  have h := (MMgr_Init_storage_failure sampleEnvNoStorage sampleUdpConfig
    rfl rfl rfl rfl rfl rfl rfl).1 [] sampleServices sampleDomains sampleUpperOn [] rfl rfl rfl
    rfl rfl
  ⟨h.1, h.2.2.1, h.2.2.2.2⟩

/-- C5, the code at a failing input. One UDP triplet whose `UdpM_Init` fails: after `MMgr_Init`
the registry still counts one route, the module it points to never had `Send` assigned, and a query
without domain match falls back to that route and calls through the unassigned field. -/
theorem failed_route_stays_registered :
    (sampleEnvUdpFails.UdpM_Init sampleServices true).1 ≠ 0 ∧
    (MMgr_Init sampleEnvUdpFails sampleUdpConfig).1 = 0 ∧
    Array_GetUsed (MMgr_Init sampleEnvUdpFails sampleUdpConfig).2.ModuleArray = 1 ∧
    (MMgr_Init sampleEnvUdpFails sampleUdpConfig).2.ModuleArray = [some 0] ∧
    (MMgr_Init sampleEnvUdpFails sampleUdpConfig).2.Modules =
      [{ ModuleUnion := .Udp { Send := 0, Internal := 0 }, Send := none, ModuleName := some "UDP" }] ∧
    MMgr_Send_route sampleEnvUdpFails (MMgr_Init sampleEnvUdpFails sampleUdpConfig).2 sampleQuery =
      some (some 0) ∧
    (MMgr_Send sampleEnvUdpFails (MMgr_Init sampleEnvUdpFails sampleUdpConfig).2 sampleQuery 512).1 =
      .error .SendUnassigned :=
  ⟨by decide, by decide, by decide, by decide, by decide, by decide, rfl⟩

/-- C2, the code at a failing input. One UDP group that is constructed and one TCP group whose
`TcpM_Init` fails: after `MMgr_Init` the registry holds both routes, the second with `Send` never
assigned. A query that passes filter, hosts and cache, matches no domain and has entity length 41
selects the second route by fallback; no send routine is called and no backend value is returned.
A query of entity length 40 selects the first route, whose send routine is called once. -/
theorem selected_route_without_send :
    (sampleEnvTcpFails.TcpM_Init sampleServices none).1 ≠ 0 ∧
    (MMgr_Init sampleEnvTcpFails sampleMixedConfig).1 = 0 ∧
    (MMgr_Init sampleEnvTcpFails sampleMixedConfig).2.ModuleArray = [some 0, some 1] ∧
    (MMgr_Init sampleEnvTcpFails sampleMixedConfig).2.Modules =
      [{ ModuleUnion := .Udp { Send := 1, Internal := 0 }, Send := some 1, ModuleName := some "UDP" },
        { ModuleUnion := .Tcp { Send := 0, Internal := 0 }, Send := none, ModuleName := some "TCP" }] ∧
    sampleEnvTcpFails.Filter_Out sampleOddQuery = false ∧
    sampleEnvTcpFails.Hosts_Get sampleOddQuery 512 ≠ 0 ∧
    sampleEnvTcpFails.DNSCache_FetchFromCache sampleOddQuery 512 ≠ 0 ∧
    MMgr_Send_route sampleEnvTcpFails (MMgr_Init sampleEnvTcpFails sampleMixedConfig).2
      sampleOddQuery = some (some 1) ∧
    sendCalls (MMgr_Send sampleEnvTcpFails (MMgr_Init sampleEnvTcpFails sampleMixedConfig).2
      sampleOddQuery 512).2 = [] ∧
    (MMgr_Send sampleEnvTcpFails (MMgr_Init sampleEnvTcpFails sampleMixedConfig).2
      sampleOddQuery 512).1 = .error .SendUnassigned ∧
    MMgr_Send sampleEnvTcpFails (MMgr_Init sampleEnvTcpFails sampleMixedConfig).2 sampleQuery 512 =
      (.ok 513,
        [.Filter_Out sampleQuery, .Hosts_Get sampleQuery 512,
          .DNSCache_FetchFromCache sampleQuery 512,
          .StringChunk_Domain_Match sampleQuery.Domain sampleQuery.HashValue,
          .Send 1 0 sampleQuery 512]) :=
  ⟨by decide, by decide, by decide, by decide, by decide, by decide, by decide, by decide,
    by decide, rfl, rfl⟩

end MMgr
